import Mathlib

/-!
Verification of the report pipeline of `app.py`: text composition
(`generate_learning_message`), report parsing (`parse_learning_data`) and
card rendering (`create_body`, `create_modern_section`, ...).

Modelling conventions: a Python `str` is the sequence of its Unicode code
points (`List Char`); Python floats are embedded as `ℚ`; Python `round`
is round-half-to-even; `str.strip` strips the ASCII whitespace actually
occurring in the pipeline's texts.  Purely visual card attributes
(padding, margins, font sizes) are not modelled; layout direction,
background colours, text contents, wrap flags and tree structure are.
-/

/-- Sequence of Unicode code points of a Python string. -/
abbrev Str := List Char

/-- Whitespace as stripped by `str.strip` (ASCII subset). -/
def wsp (c : Char) : Bool := c == ' ' || c == '\t' || c == '\n' || c == '\r'

/-- Leading-whitespace part of `str.strip`. -/
def stripLeft (s : Str) : Str := s.dropWhile wsp

/-- Trailing-whitespace part of `str.strip`. -/
def stripRight (s : Str) : Str := (s.reverse.dropWhile wsp).reverse

/-- Python `str.strip()`. -/
def pyStrip (s : Str) : Str := stripLeft (stripRight s)

/-- Python `str.startswith` (first argument plays the role of the Python argument). -/
def startsWith : Str → Str → Bool
  | [], _ => true
  | _ :: _, [] => false
  | p :: ps, c :: cs => p == c && startsWith ps cs

/-- Whether `pat` occurs as a contiguous substring of the second argument. -/
def containsSub (pat : Str) : Str → Bool
  | [] => startsWith pat []
  | c :: rest => startsWith pat (c :: rest) || containsSub pat rest

/-- Python `str.split` on the newline character (keeps empty pieces). -/
def splitLines : Str → List Str
  | [] => [[]]
  | c :: rest =>
    match splitLines rest with
    | [] => [[]]
    | l :: ls => if c = '\n' then [] :: l :: ls else (c :: l) :: ls

/-- Inverse presentation of `splitLines`: join lines with newline characters. -/
def joinLines : List Str → Str
  | [] => []
  | [l] => l
  | l :: ls => l ++ '\n' :: joinLines ls

/-- Step-bounded body of `str.replace`; the fuel dominates the length of `s`. -/
def replaceAllAux : ℕ → Str → Str → Str → Str
  | 0, s, _, _ => s
  | _ + 1, [], _, _ => []
  | fuel + 1, c :: rest, pat, rep =>
    if pat ≠ [] ∧ startsWith pat (c :: rest) = true then
      rep ++ replaceAllAux fuel ((c :: rest).drop pat.length) pat rep
    else c :: replaceAllAux fuel rest pat rep

/-- Python `str.replace` for a non-empty pattern (replaces all occurrences,
scanning left to right). -/
def replaceAll (s pat rep : Str) : Str := replaceAllAux s.length s pat rep

/-- Decimal digit character. -/
def digitChar : ℕ → Char
  | 0 => '0' | 1 => '1' | 2 => '2' | 3 => '3' | 4 => '4'
  | 5 => '5' | 6 => '6' | 7 => '7' | 8 => '8' | _ => '9'

/-- Step-bounded digit expansion; the fuel dominates the number of digits. -/
def natStrAux : ℕ → ℕ → Str
  | 0, _ => []
  | _ + 1, 0 => []
  | fuel + 1, n + 1 => natStrAux fuel ((n + 1) / 10) ++ [digitChar ((n + 1) % 10)]

/-- Decimal digits of `n`, as Python `str` prints a non-negative int. -/
def natStr (n : ℕ) : Str := if n = 0 then ['0'] else natStrAux n n

/-- Floor of a rational, in explicitly computable form. -/
def ratFloor (q : ℚ) : ℤ := q.num.fdiv q.den

/-- Python `round` to an integer: round half to even. -/
def pyRound (q : ℚ) : ℤ :=
  let f := ratFloor q
  let d := q - f
  if d < 1 / 2 then f
  else if 1 / 2 < d then f + 1
  else if f % 2 = 0 then f else f + 1

/-- Rendering of a number with Python's format spec `.1f`. -/
def formatFloat1 (q : ℚ) : Str :=
  let n := pyRound (q * 10)
  (if n < 0 then ['-'] else []) ++ natStr (n.natAbs / 10) ++ ['.', digitChar (n.natAbs % 10)]

/-- The `totalQuestions` entry of the session dict: either a plain number
(as an external `unity_notify` payload supplies it) or the deferred callable
from `generate_fake_data` that sums the three counts. -/
inductive TQField where
  | value (n : ℤ)
  | callable
deriving DecidableEq

/-- A scored learning session as the dict handed to `generate_learning_message`. -/
structure SessionData where
  totalTime : ℚ
  attitudeScore : ℚ
  effectivenessScore : ℚ
  concentrationScore : ℚ
  correctCount : ℕ
  wrongCount : ℕ
  unansweredCount : ℕ
  totalQuestions : TQField
  avgAnswerTime : ℚ
deriving DecidableEq

/-- The number read from `data` for totalQuestions after lines 167-169 of
`app.py`: a callable is applied to the dict (summing the three counts), a
plain number is used exactly as supplied. -/
def resolveTQ (d : SessionData) : ℤ :=
  match d.totalQuestions with
  | .value n => n
  | .callable => (d.correctCount : ℤ) + d.wrongCount + d.unansweredCount

/-- State of the session dict after `generate_learning_message` returns:
line 169 overwrites a callable `totalQuestions` entry in place. -/
def resolveSession (d : SessionData) : SessionData :=
  match d.totalQuestions with
  | .value _ => d
  | .callable => { d with totalQuestions := .value (resolveTQ d) }

/-- Number of filled glyphs of `get_star_rating` (line 182). -/
def filledStars (score : ℚ) : ℤ := max 1 (min 5 (pyRound (score / 20)))

/-- Number of empty glyphs of `get_star_rating` (line 183). -/
def emptyStars (score : ℚ) : ℤ := 5 - filledStars score

/-- `get_star_rating` (lines 181-184). -/
def get_star_rating (score : ℚ) : Str :=
  List.replicate (filledStars score).toNat '⭐' ++
    List.replicate (emptyStars score).toNat '☆'

/-- The clamp function as the specification words it. -/
def clamp (x lo hi : ℤ) : ℤ := max lo (min hi x)

/-- Attitude remark (lines 190-195), without the trailing newline. -/
def attitude_remark (s : ℚ) : Str :=
  if s ≥ 80 then "🌟 超棒！你的專注力像雷射一樣集中！".data
  else if s ≥ 60 then "👍 不錯喔！保持這個節奏繼續加油！".data
  else "🤔 似乎有點分心呢，試著找個更安靜的環境吧！".data

/-- Effectiveness remark (lines 201-208), without the trailing newline. -/
def effectiveness_remark (s : ℚ) : Str :=
  if s ≥ 90 then "🏆 太厲害了！你是學霸本霸！".data
  else if s ≥ 70 then "✨ 表現很好！再接再厲就能更上一層樓！".data
  else if s ≥ 50 then "💡 還有進步空間，建議重新複習一下重點內容！".data
  else "📚 別灰心！學習是個過程，建議先回去看看PDF內容！".data

/-- Concentration remark (lines 218-223): chosen from `avg_answer_time`
alone, without the trailing newline. -/
def concentration_remark (avg : ℚ) : Str :=
  if avg ≤ 10 then "⚡ 反應神速！但記得要仔細思考喔！".data
  else if avg ≤ 30 then "⏱️ 思考速度剛好，很穩健的學習節奏！".data
  else "🐌 慢工出細活，但可以試著提高一點效率！".data

/-- Personalised advice line (lines 230-239), first matching condition wins,
without the trailing newline. -/
def advice_tip (att eff : ℚ) (u : ℕ) (tq : ℤ) (avg : ℚ) : Str :=
  if (u : ℚ) > (tq : ℚ) * (3 / 10) then "⏰ 有不少題目還沒完成，建議合理安排時間喔！".data
  else if att < 60 ∧ eff < 70 then "🎯 建議先提升專注力，可以試試番茄鐘學習法！".data
  else if eff < 70 then "📖 多花點時間在PDF閱讀上，基礎打穩很重要！".data
  else if avg > 30 then "⚡ 可以多做練習題來提升答題速度喔！".data
  else "🌈 你的學習狀態很棒！繼續保持這個節奏！".data

/-- Prefix of the AI-advice line (lines 244 and 389). -/
def aiMarker : Str := "🤖 AI建議：".data

/-- `generate_learning_message` (lines 166-246).  The AI advice string is the
value returned by the external `AIAdviceService.get_ai_advice` collaborator
and is passed in as an argument; the in-place dict update of line 169 is
modelled by `resolveSession` / `resolveTQ`. -/
def generate_learning_message (d : SessionData) (ai_advice : Str) : Str :=
  let tq := resolveTQ d
  "🎓 學習報告出爐啦！\n\n".data ++
  "❶學習態度".data ++ get_star_rating d.attitudeScore ++ " (".data ++
    formatFloat1 d.attitudeScore ++ "分)\n".data ++
  attitude_remark d.attitudeScore ++ "\n".data ++
  "⏰ 總學習時間：".data ++ formatFloat1 (d.totalTime / 60) ++ "分鐘\n\n".data ++
  "❷學習成效".data ++ get_star_rating d.effectivenessScore ++ " (".data ++
    formatFloat1 d.effectivenessScore ++ "分)\n".data ++
  effectiveness_remark d.effectivenessScore ++ "\n".data ++
  "✅ 答對：".data ++ natStr d.correctCount ++ "題\n❌ 答錯：".data ++
    natStr d.wrongCount ++ "題\n".data ++
  (if 0 < d.unansweredCount then
    "⏸️ 未作答：".data ++ natStr d.unansweredCount ++ "題\n".data
   else []) ++
  "\n".data ++
  "❸學習專心度".data ++ get_star_rating d.concentrationScore ++ " (".data ++
    formatFloat1 d.concentrationScore ++ "分)\n".data ++
  concentration_remark d.avgAnswerTime ++ "\n".data ++
  "🕐 平均答題時間：".data ++ formatFloat1 d.avgAnswerTime ++ "秒\n\n".data ++
  "💭 AI小老師的貼心建議：\n".data ++
  advice_tip d.attitudeScore d.effectivenessScore d.unansweredCount tq d.avgAnswerTime ++
    "\n".data ++
  "\n🚀 加油！每一次學習都讓你更接近目標！".data ++
  "\n\n🤖 AI建議：".data ++ ai_advice

/-- Star glyphs of the rating (the `[⭐☆]` character class of line 376-377). -/
def isStar (c : Char) : Bool := c == '⭐' || c == '☆'

/-- Section ordinal glyphs `❶ ❷ ❸`. -/
def isOrdinal (c : Char) : Bool := '❶' == c || '❷' == c || '❸' == c

/-- Line 370: the line opens a section. -/
def isSectionStart (line : Str) : Bool :=
  startsWith ['❶'] line || startsWith ['❷'] line || startsWith ['❸'] line

/-- Lines 395-397: the line is a stat line (clock/check/cross/pause/clock-alt;
the pause marker is the two-code-point sequence `⏸` + VS16). -/
def isStatLine (line : Str) : Bool :=
  startsWith ['⏰'] line || startsWith ['✅'] line || startsWith ['❌'] line ||
    startsWith ['⏸', '️'] line || startsWith ['🕐'] line

/-- `re.match` against `(❶|❷|❸)([^⭐☆]+)` (line 376): ordinal marker and the
maximal nonempty star-free run after it. -/
def sectionMatch : Str → Option (Str × Str)
  | [] => none
  | c :: rest =>
    if isOrdinal c then
      match rest.takeWhile (fun x => !isStar x) with
      | [] => none
      | t => some ([c], t)
    else none

/-- `re.search` against `([⭐☆]+)` (line 377): first maximal star-glyph run. -/
def starsOf (line : Str) : Str :=
  (line.dropWhile (fun c => !isStar c)).takeWhile isStar

/-- Helper for `re.search` against `\(([^)]+)\)`: chars before the first `)`
if one occurs. -/
def parenRunAux : Str → Option Str
  | [] => none
  | c :: rest =>
    if c = ')' then some []
    else
      match parenRunAux rest with
      | some run => some (c :: run)
      | none => none

/-- `re.search` against `\(([^)]+)\)` (line 378): first parenthesis group
with a nonempty `)`-free body; empty string when the search fails. -/
def scoreOf : Str → Str
  | [] => []
  | c :: rest =>
    if c = '(' then
      match parenRunAux rest with
      | some run => if run = [] then scoreOf rest else run
      | none => scoreOf rest
    else scoreOf rest

/-- One parsed report section (the dict of lines 380-387). -/
structure ParsedSection where
  number : Str
  title : Str
  stars : Str
  score : Str
  content : List Str
  stats : List Str
deriving DecidableEq

/-- The parsed report (the dict of lines 356-360). -/
structure ParsedData where
  sections : List ParsedSection
  ai_advice : Str
  motivation : Str
deriving DecidableEq

/-- Section dict created at lines 380-387 from a stripped section line. -/
def mkSection (line : Str) : ParsedSection :=
  { number := match sectionMatch line with | some (m, _) => m | none => []
    title := match sectionMatch line with | some (_, t) => pyStrip t | none => line
    stars := starsOf line
    score := scoreOf line
    content := []
    stats := [] }

/-- Lines 371-372 and 403-404: append the open section, if any. -/
def flushSection (d : ParsedData) (cur : Option ParsedSection) : ParsedData :=
  match cur with
  | some s => { d with sections := d.sections ++ [s] }
  | none => d

/-- Body of the `for line in lines` loop of `parse_learning_data`
(lines 364-401), acting on the pair (result dict, open section). -/
def parseLineStep (st : ParsedData × Option ParsedSection) (raw : Str) :
    ParsedData × Option ParsedSection :=
  let line := pyStrip raw
  if line = [] then st
  else if isSectionStart line then
    (flushSection st.1 st.2, some (mkSection line))
  else if startsWith aiMarker line then
    ({ st.1 with ai_advice := pyStrip (replaceAll line aiMarker []) }, st.2)
  else if startsWith ['🚀'] line then
    ({ st.1 with motivation := line }, st.2)
  else
    match st.2 with
    | some s =>
      if isStatLine line then (st.1, some { s with stats := s.stats ++ [line] })
      else (st.1, some { s with content := s.content ++ [line] })
    | none => st

/-- `parse_learning_data` (lines 354-406). -/
def parse_learning_data (lines : List Str) : ParsedData :=
  let st := lines.foldl parseLineStep (⟨[], [], []⟩, none)
  flushSection st.1 st.2

/-- The card-tree nodes produced by the renderer (structure, layout
direction, background/text colours, contents and wrap flags). -/
inductive CardNode where
  | box (layout : Str) (backgroundColor : Option Str) (contents : List CardNode)
  | text (content : Str) (color : Option Str) (wrap : Bool)
  | separator

/-- One entry of the fixed colour palette of `create_modern_section`. -/
structure ColorScheme where
  bg : Str
  light : Str
  tcol : Str
deriving DecidableEq

/-- The fixed three-entry palette (lines 517-521). -/
def colors : List ColorScheme :=
  [⟨"#4ade80".data, "#dcfce7".data, "#166534".data⟩,
   ⟨"#fbbf24".data, "#fef3c7".data, "#92400e".data⟩,
   ⟨"#f87171".data, "#fee2e2".data, "#991b1b".data⟩]

/-- `create_modern_section` (lines 514-636); `none` models a Python
`IndexError` on the palette lookup. -/
def create_modern_section (s : ParsedSection) (index : ℕ) : Option (List CardNode) :=
  match colors.get? (index % 3) with
  | none => none
  | some color =>
    let title_card : CardNode :=
      .box "vertical".data (some color.bg)
        [.box "horizontal".data none
          [.text s.number (some "#FFFFFF".data) false,
           .box "vertical".data none
             [.text s.title (some "#FFFFFF".data) true,
              .box "horizontal".data none
                [.text s.stars (some "#FFFFFF".data) false,
                 .text s.score (some "#FFFFFF".data) false]]]]
    let content_items : List CardNode :=
      (s.content.map (fun c => CardNode.text c (some "#374151".data) true)) ++
      (if s.stats ≠ [] then
        (if s.content ≠ [] then [CardNode.separator] else []) ++
        [CardNode.box "vertical".data (some "#ffffff".data)
          (s.stats.map (fun t => CardNode.text t (some "#6b7280".data) false))]
       else [])
    some ([title_card] ++
      (if content_items.isEmpty then []
       else [CardNode.box "vertical".data (some color.light) content_items]))

/-- The AI advice card (lines 473-512). -/
def create_ai_advice_box (ai_advice : Str) : CardNode :=
  .box "vertical".data (some "#1e293b".data)
    [.box "horizontal".data none
      [.text "🤖".data (some "#FFFFFF".data) false,
       .box "vertical".data none
         [.text "AI 專屬建議".data (some "#FFFFFF".data) false,
          .text ai_advice (some "#cbd5e1".data) true]]]

/-- The fixed header block (lines 409-446). -/
def create_header : CardNode :=
  .box "vertical".data (some "#667eea".data)
    [.box "horizontal".data none
      [.text "📊".data (some "#FFFFFF".data) false,
       .box "vertical".data none
         [.text "學習成果報告".data (some "#FFFFFF".data) false,
          .text "Learning Report".data (some "#E8EAFF".data) false]]]

/-- Per-section part of the loop of `create_body` (lines 454-458). -/
def bodySections : List ParsedSection → ℕ → Option (List CardNode)
  | [], _ => some []
  | s :: rest, i =>
    match create_modern_section s i, bodySections rest (i + 1) with
    | some cards, some tail =>
      some ((if 0 < i then [CardNode.separator] else []) ++ cards ++ tail)
    | _, _ => none

/-- `create_body` (lines 449-471): section cards, then the AI-advice card
when `ai_advice` is non-empty.  The `motivation` field is never consulted. -/
def create_body (d : ParsedData) : Option CardNode :=
  match bodySections d.sections 0 with
  | none => none
  | some cs =>
    some (.box "vertical".data (some "#f8f9ff".data)
      (cs ++ (if d.ai_advice ≠ [] then
        [CardNode.separator, create_ai_advice_box d.ai_advice] else [])))

/-- `create_learning_report_flex` (lines 336-351): split, parse, render. -/
def create_learning_report_flex (message : Str) : Option CardNode :=
  match create_body (parse_learning_data (splitLines message)) with
  | none => none
  | some body => some (.box "bubble".data none [create_header, body])

/-- Count of the open section (0 or 1), used to track section flushing. -/
def openCount : Option ParsedSection → ℕ
  | some _ => 1
  | none => 0

/-- Background colour of the first card of a section's card list. -/
def headBg : List CardNode → Option Str
  | CardNode.box _ bg _ :: _ => bg
  | _ => none

/-- A section line of the composed report, written with its first and last
character exposed. -/
def secLine (marker : Char) (title : Str) (score : ℚ) : Str :=
  marker :: ((title ++ get_star_rating score ++ " (".data ++ formatFloat1 score ++ ['分']) ++ [')'])

/-- The total-time stat line of section 1. -/
def statLineTime (d : SessionData) : Str :=
  '⏰' :: ((" 總學習時間：".data ++ formatFloat1 (d.totalTime / 60) ++ ['分']) ++ ['鐘'])

/-- The correct-count stat line of section 2. -/
def statLineCorrect (d : SessionData) : Str :=
  '✅' :: ((" 答對：".data ++ natStr d.correctCount) ++ ['題'])

/-- The wrong-count stat line of section 2. -/
def statLineWrong (d : SessionData) : Str :=
  '❌' :: ((" 答錯：".data ++ natStr d.wrongCount) ++ ['題'])

/-- The unanswered-count stat line of section 2 (emitted only when positive). -/
def statLineUnanswered (d : SessionData) : Str :=
  '⏸' :: (('️' :: (" 未作答：".data ++ natStr d.unansweredCount)) ++ ['題'])

/-- The average-answer-time stat line of section 3. -/
def statLineAvg (d : SessionData) : Str :=
  '🕐' :: ((" 平均答題時間：".data ++ formatFloat1 d.avgAnswerTime) ++ ['秒'])

/-- The personalised advice line of the composed report. -/
def adviceLineOf (d : SessionData) : Str :=
  advice_tip d.attitudeScore d.effectivenessScore d.unansweredCount (resolveTQ d) d.avgAnswerTime

/-- The lines of `generate_learning_message d a`, in order. -/
def lineList (d : SessionData) (a : Str) : List Str :=
  ["🎓 學習報告出爐啦！".data, [],
   secLine '❶' "學習態度".data d.attitudeScore,
   attitude_remark d.attitudeScore,
   statLineTime d, [],
   secLine '❷' "學習成效".data d.effectivenessScore,
   effectiveness_remark d.effectivenessScore,
   statLineCorrect d, statLineWrong d] ++
  (if 0 < d.unansweredCount then [statLineUnanswered d] else []) ++
  [[],
   secLine '❸' "學習專心度".data d.concentrationScore,
   concentration_remark d.avgAnswerTime,
   statLineAvg d, [],
   "💭 AI小老師的貼心建議：".data,
   adviceLineOf d, [],
   "🚀 加油！每一次學習都讓你更接近目標！".data, [],
   aiMarker ++ a]

/-- Expected parse of section 1 of a composed report. -/
def sec1 (d : SessionData) : ParsedSection :=
  { number := ['❶'], title := "學習態度".data,
    stars := get_star_rating d.attitudeScore,
    score := formatFloat1 d.attitudeScore ++ ['分'],
    content := [attitude_remark d.attitudeScore],
    stats := [statLineTime d] }

/-- Expected parse of section 2 of a composed report. -/
def sec2 (d : SessionData) : ParsedSection :=
  { number := ['❷'], title := "學習成效".data,
    stars := get_star_rating d.effectivenessScore,
    score := formatFloat1 d.effectivenessScore ++ ['分'],
    content := [effectiveness_remark d.effectivenessScore],
    stats := [statLineCorrect d, statLineWrong d] ++
      (if 0 < d.unansweredCount then [statLineUnanswered d] else []) }

/-- Expected parse of section 3 of a composed report: the closing advice
block lines fall into this section because nothing closes it, and the
time-management tip starts with the clock glyph, a stat marker. -/
def sec3 (d : SessionData) : ParsedSection :=
  { number := ['❸'], title := "學習專心度".data,
    stars := get_star_rating d.concentrationScore,
    score := formatFloat1 d.concentrationScore ++ ['分'],
    content := [concentration_remark d.avgAnswerTime, "💭 AI小老師的貼心建議：".data] ++
      (if (d.unansweredCount : ℚ) > (resolveTQ d : ℚ) * (3 / 10) then []
       else [adviceLineOf d]),
    stats := [statLineAvg d] ++
      (if (d.unansweredCount : ℚ) > (resolveTQ d : ℚ) * (3 / 10) then [adviceLineOf d]
       else []) }

/-- Expected full parse of a composed report. -/
def expectedParse (d : SessionData) (a : Str) : ParsedData :=
  { sections := [sec1 d, sec2 d, sec3 d],
    ai_advice := pyStrip a,
    motivation := "🚀 加油！每一次學習都讓你更接近目標！".data }

/-- The concrete scenario session of the specification. -/
def demoSession : SessionData :=
  { totalTime := 1800, attitudeScore := 85, effectivenessScore := 92,
    concentrationScore := 70, correctCount := 10, wrongCount := 2,
    unansweredCount := 0, totalQuestions := .value 12, avgAnswerTime := 12 }

/-- A demo advice string (single line, no marker inside). -/
def demoAdvice : Str := "多喝水".data

/-- A small session for concrete counterexample evaluation. -/
def ceSession : SessionData :=
  { totalTime := 60, attitudeScore := 0, effectivenessScore := 0,
    concentrationScore := 0, correctCount := 1, wrongCount := 0,
    unansweredCount := 0, totalQuestions := .value 1, avgAnswerTime := 5 }

/-- A session whose `totalQuestions` entry is the callable supplied by
`generate_fake_data`. -/
def cbSession : SessionData :=
  { totalTime := 60, attitudeScore := 80, effectivenessScore := 80,
    concentrationScore := 80, correctCount := 1, wrongCount := 1,
    unansweredCount := 1, totalQuestions := .callable, avgAnswerTime := 12 }

/-- A session as an external payload can supply it: a numeric
`totalQuestions` that disagrees with the sum of the three counts. -/
def tqSession : SessionData :=
  { totalTime := 60, attitudeScore := 80, effectivenessScore := 80,
    concentrationScore := 80, correctCount := 1, wrongCount := 1,
    unansweredCount := 1, totalQuestions := .value 999, avgAnswerTime := 12 }

unseal Rat.add Rat.sub Rat.mul Rat.inv

/-! ### Generic list and string helper lemmas -/

theorem takeWhile_append_all {p : Char → Bool} {xs : Str} (h : ∀ c ∈ xs, p c = true)
    (ys : Str) : (xs ++ ys).takeWhile p = xs ++ ys.takeWhile p := by
  induction xs with
  | nil => simp
  | cons x xs ih =>
    have hx : p x = true := h x (by simp)
    simp only [List.cons_append, List.takeWhile_cons, hx, if_true]
    rw [ih (fun c hc => h c (by simp [hc]))]

theorem dropWhile_append_all {p : Char → Bool} {xs : Str} (h : ∀ c ∈ xs, p c = true)
    (ys : Str) : (xs ++ ys).dropWhile p = ys.dropWhile p := by
  induction xs with
  | nil => simp
  | cons x xs ih =>
    have hx : p x = true := h x (by simp)
    simp only [List.cons_append, List.dropWhile_cons, hx, if_true]
    exact ih (fun c hc => h c (by simp [hc]))

theorem dropWhile_append_split (p : Char → Bool) (as bs : Str) :
    (as ++ bs).dropWhile p =
      if as.dropWhile p = [] then bs.dropWhile p else as.dropWhile p ++ bs := by
  induction as with
  | nil => simp
  | cons a as ih =>
    cases h : p a with
    | true => simpa [List.dropWhile_cons, h] using ih
    | false => simp [List.dropWhile_cons, h]

theorem dropWhile_idem (p : Char → Bool) (l : Str) :
    (l.dropWhile p).dropWhile p = l.dropWhile p := by
  induction l with
  | nil => rfl
  | cons c cs ih =>
    cases hc : p c with
    | true => simpa [List.dropWhile_cons, hc] using ih
    | false => simp [List.dropWhile_cons, hc]

theorem stripLeft_cons_of_neg {a : Char} (ha : wsp a = false) (xs : Str) :
    stripLeft (a :: xs) = a :: xs := by
  simp [stripLeft, List.dropWhile_cons, ha]

theorem stripRight_append_last {z : Char} (hz : wsp z = false) (xs : Str) :
    stripRight (xs ++ [z]) = xs ++ [z] := by
  simp [stripRight, List.dropWhile_cons, hz]

theorem pyStrip_anchor {a z : Char} (ha : wsp a = false) (hz : wsp z = false) (xs : Str) :
    pyStrip (a :: (xs ++ [z])) = a :: (xs ++ [z]) := by
  have h1 : a :: (xs ++ [z]) = (a :: xs) ++ [z] := rfl
  rw [pyStrip, h1, stripRight_append_last hz, ← h1, stripLeft_cons_of_neg ha]

theorem stripRight_idem (a : Str) : stripRight (stripRight a) = stripRight a := by
  simp [stripRight, List.reverse_reverse, dropWhile_idem]

theorem pyStrip_stripRight (a : Str) : pyStrip (stripRight a) = pyStrip a := by
  simp [pyStrip, stripRight_idem]

theorem stripRight_decomp (a : Str) :
    a = stripRight a ++ (a.reverse.takeWhile wsp).reverse := by
  rw [stripRight, ← List.reverse_append, List.takeWhile_append_dropWhile,
    List.reverse_reverse]

theorem stripRight_append_split (xs ys : Str) :
    stripRight (xs ++ ys) =
      if stripRight ys = [] then stripRight xs else xs ++ stripRight ys := by
  rw [stripRight, List.reverse_append, dropWhile_append_split]
  by_cases h : ys.reverse.dropWhile wsp = []
  · simp [stripRight, h]
  · simp [stripRight, h]

theorem startsWith_append_self (xs ys : Str) : startsWith xs (xs ++ ys) = true := by
  induction xs with
  | nil => rfl
  | cons x xs ih => simp [startsWith, ih]

theorem startsWith_extend {pat xs : Str} (h : startsWith pat xs = true) (ys : Str) :
    startsWith pat (xs ++ ys) = true := by
  induction pat generalizing xs with
  | nil => rfl
  | cons p ps ih =>
    cases xs with
    | nil => simp [startsWith] at h
    | cons c cs =>
      simp only [startsWith, Bool.and_eq_true] at h
      simp only [List.cons_append, startsWith, Bool.and_eq_true]
      exact ⟨h.1, ih h.2⟩

theorem containsSub_append_left {p : Char} {ps xs ys : Str}
    (h : containsSub (p :: ps) (xs ++ ys) = false) : containsSub (p :: ps) xs = false := by
  induction xs with
  | nil => rfl
  | cons c cs ih =>
    simp only [List.cons_append, containsSub, Bool.or_eq_false_iff] at h ⊢
    refine ⟨?_, ih h.2⟩
    cases hb : startsWith (p :: ps) (c :: cs) with
    | false => rfl
    | true =>
      exfalso
      have h2 := startsWith_extend hb ys
      simp only [List.cons_append] at h2
      exact absurd (h2.symm.trans h.1) (by decide)

theorem startsWith_false_of_containsSub_false {pat s : Str}
    (h : containsSub pat s = false) : startsWith pat s = false := by
  cases s with
  | nil => exact h
  | cons c cs =>
    simp only [containsSub, Bool.or_eq_false_iff] at h
    exact h.1

theorem replaceAllAux_id {pat rep : Str} :
    ∀ (fuel : ℕ) (s : Str), containsSub pat s = false → replaceAllAux fuel s pat rep = s := by
  intro fuel
  induction fuel with
  | zero => intro s _; rfl
  | succ fuel ih =>
    intro s hs
    cases s with
    | nil => rfl
    | cons c cs =>
      rw [replaceAllAux, if_neg]
      · simp only [containsSub, Bool.or_eq_false_iff] at hs
        rw [ih cs hs.2]
      · intro hc
        rw [startsWith_false_of_containsSub_false hs] at hc
        exact absurd hc.2 (by simp)

theorem replaceAll_prefix {pat s : Str} (hp : pat ≠ []) (h : containsSub pat s = false)
    (rep : Str) : replaceAll (pat ++ s) pat rep = rep ++ s := by
  cases pat with
  | nil => exact absurd rfl hp
  | cons p ps =>
    have hl : ((p :: ps) ++ s).length = (ps.length + s.length) + 1 := by
      simp [List.length_append]
    rw [replaceAll, hl, List.cons_append, replaceAllAux,
      if_pos (⟨by simp, by simpa using startsWith_append_self (p :: ps) s⟩ :
        (p :: ps) ≠ [] ∧ startsWith (p :: ps) (p :: (ps ++ s)) = true),
      List.length_cons, List.drop_succ_cons, List.drop_left, replaceAllAux_id _ s h]

/-! ### splitLines and joinLines -/

theorem splitLines_ne_nil (s : Str) : splitLines s ≠ [] := by
  cases s with
  | nil => simp [splitLines]
  | cons c rest =>
    simp only [splitLines]
    cases h : splitLines rest with
    | nil => simp
    | cons l ls => by_cases hc : c = '\n' <;> simp [hc]

theorem splitLines_no_nl {l : Str} (h : '\n' ∉ l) : splitLines l = [l] := by
  induction l with
  | nil => rfl
  | cons c cs ih =>
    have hc : ¬(c = '\n') := fun e => h (by simp [e])
    have ih' := ih (fun m => h (List.mem_cons_of_mem _ m))
    simp [splitLines, ih', hc]

theorem splitLines_append {l rest : Str} (h : '\n' ∉ l) :
    splitLines (l ++ '\n' :: rest) = l :: splitLines rest := by
  induction l with
  | nil =>
    simp only [List.nil_append, splitLines]
    cases hr : splitLines rest with
    | nil => exact absurd hr (splitLines_ne_nil rest)
    | cons a as => simp
  | cons c cs ih =>
    have hc : ¬(c = '\n') := fun e => h (by simp [e])
    have ih' := ih (fun m => h (List.mem_cons_of_mem _ m))
    rw [List.cons_append, splitLines, ih']
    simp [hc]

theorem splitLines_joinLines :
    ∀ {ls : List Str}, ls ≠ [] → (∀ l ∈ ls, '\n' ∉ l) → splitLines (joinLines ls) = ls
  | [], hne, _ => absurd rfl hne
  | [l], _, h => by
    have : joinLines [l] = l := rfl
    rw [this, splitLines_no_nl (h l (by simp))]
  | l :: l2 :: ls, _, h => by
    have he : joinLines (l :: l2 :: ls) = l ++ '\n' :: joinLines (l2 :: ls) := rfl
    rw [he, splitLines_append (h l (by simp)),
      splitLines_joinLines (by simp) (fun x hx => h x (by simp [hx]))]

/-! ### Character classes of the composed fragments -/

theorem digitChar_isDigit : ∀ d : ℕ, (digitChar d).isDigit = true
  | 0 | 1 | 2 | 3 | 4 | 5 | 6 | 7 | 8 => by decide
  | _ + 9 => rfl

theorem natStrAux_digits :
    ∀ (fuel n : ℕ) (c : Char), c ∈ natStrAux fuel n → c.isDigit = true
  | 0, _, c, h => absurd h (List.not_mem_nil c)
  | _ + 1, 0, c, h => absurd h (List.not_mem_nil c)
  | fuel + 1, n + 1, c, h => by
    rw [natStrAux] at h
    rcases List.mem_append.1 h with h1 | h2
    · exact natStrAux_digits fuel _ c h1
    · rw [List.mem_singleton.1 h2]
      exact digitChar_isDigit _

theorem natStr_digits (n : ℕ) (c : Char) (h : c ∈ natStr n) : c.isDigit = true := by
  rw [natStr] at h
  by_cases h0 : n = 0
  · rw [if_pos h0, List.mem_singleton] at h
    rw [h]; rfl
  · rw [if_neg h0] at h
    exact natStrAux_digits n n c h

theorem formatFloat1_chars (q : ℚ) (c : Char) (h : c ∈ formatFloat1 q) :
    c.isDigit = true ∨ c = '.' ∨ c = '-' := by
  rw [formatFloat1] at h
  simp only [List.mem_append] at h
  rcases h with (h | h) | h
  · by_cases hn : pyRound (q * 10) < 0
    · rw [if_pos hn, List.mem_singleton] at h
      exact Or.inr (Or.inr h)
    · rw [if_neg hn] at h
      exact absurd h (List.not_mem_nil c)
  · exact Or.inl (natStr_digits _ c h)
  · rcases List.mem_cons.1 h with h1 | h2
    · exact Or.inr (Or.inl h1)
    · rw [List.mem_singleton.1 h2]
      exact Or.inl (digitChar_isDigit _)

theorem numlike_ne {c x : Char} (h : c.isDigit = true ∨ c = '.' ∨ c = '-')
    (hx : x.isDigit = false ∧ x ≠ '.' ∧ x ≠ '-') : c ≠ x := by
  rintro rfl
  rcases h with h | h | h
  · rw [h] at hx; exact absurd hx.1 (by simp)
  · exact hx.2.1 h
  · exact hx.2.2 h

theorem formatFloat1_ne_nl (q : ℚ) (c : Char) (h : c ∈ formatFloat1 q) : c ≠ '\n' :=
  numlike_ne (formatFloat1_chars q c h) (by decide)

theorem formatFloat1_ne_rp (q : ℚ) (c : Char) (h : c ∈ formatFloat1 q) : c ≠ ')' :=
  numlike_ne (formatFloat1_chars q c h) (by decide)

theorem formatFloat1_ne_lp (q : ℚ) (c : Char) (h : c ∈ formatFloat1 q) : c ≠ '(' :=
  numlike_ne (formatFloat1_chars q c h) (by decide)

theorem natStr_ne_nl (n : ℕ) (c : Char) (h : c ∈ natStr n) : c ≠ '\n' :=
  numlike_ne (Or.inl (natStr_digits n c h)) (by decide)

/-! ### Star-block facts -/

theorem get_star_rating_chars (q : ℚ) (c : Char) (h : c ∈ get_star_rating q) :
    isStar c = true := by
  rw [get_star_rating] at h
  rcases List.mem_append.1 h with h1 | h1 <;>
    rw [List.eq_of_mem_replicate h1] <;> rfl

theorem filledStars_pos (q : ℚ) : 1 ≤ filledStars q := le_max_left 1 _

theorem filledStars_le (q : ℚ) : filledStars q ≤ 5 :=
  max_le (by norm_num) (min_le_left 5 _)

theorem get_star_rating_head (q : ℚ) : ∃ t, get_star_rating q = '⭐' :: t := by
  have h1 := filledStars_pos q
  obtain ⟨k, hk⟩ : ∃ k, (filledStars q).toNat = k + 1 :=
    ⟨(filledStars q).toNat - 1, by omega⟩
  refine ⟨List.replicate k '⭐' ++ List.replicate (emptyStars q).toNat '☆', ?_⟩
  rw [get_star_rating, hk, List.replicate_succ, List.cons_append]

theorem get_star_rating_length (q : ℚ) : (get_star_rating q).length = 5 := by
  have h1 := filledStars_pos q
  have h2 := filledStars_le q
  rw [get_star_rating]
  simp only [List.length_append, List.length_replicate, emptyStars]
  omega

theorem isStar_cases {c : Char} (h : isStar c = true) : c = '⭐' ∨ c = '☆' := by
  simp only [isStar, Bool.or_eq_true, beq_iff_eq] at h
  exact h

theorem isStar_ne_nl {c : Char} (h : isStar c = true) : c ≠ '\n' := by
  rcases isStar_cases h with rfl | rfl <;> decide

theorem isStar_ne_lp {c : Char} (h : isStar c = true) : c ≠ '(' := by
  rcases isStar_cases h with rfl | rfl <;> decide

/-! ### Head-character reductions of the parser predicates -/

theorem isSectionStart_cons (c : Char) (rest : Str) :
    isSectionStart (c :: rest) = isOrdinal c := by
  simp [isSectionStart, isOrdinal, startsWith]

theorem ordinal_cases {m : Char} (h : isOrdinal m = true) :
    m = '❶' ∨ m = '❷' ∨ m = '❸' := by
  simp only [isOrdinal, Bool.or_eq_true, beq_iff_eq] at h
  tauto

theorem ordinal_not_wsp {m : Char} (h : isOrdinal m = true) : wsp m = false := by
  rcases ordinal_cases h with rfl | rfl | rfl <;> rfl

theorem ordinal_not_star {m : Char} (h : isOrdinal m = true) : isStar m = false := by
  rcases ordinal_cases h with rfl | rfl | rfl <;> rfl

theorem ordinal_ne_lp {m : Char} (h : isOrdinal m = true) : m ≠ '(' := by
  rcases ordinal_cases h with rfl | rfl | rfl <;> decide

/-! ### Extraction helpers for the section line -/

theorem parenRunAux_append {xs : Str} (h : ∀ c ∈ xs, c ≠ ')') (ys : Str) :
    parenRunAux (xs ++ ys) = (parenRunAux ys).map (fun r => xs ++ r) := by
  induction xs with
  | nil => simp
  | cons c cs ih =>
    have hc : ¬(c = ')') := h c (by simp)
    rw [List.cons_append, parenRunAux, if_neg hc, ih (fun x hx => h x (by simp [hx]))]
    cases parenRunAux ys <;> simp

theorem scoreOf_cons_ne {c : Char} (hc : c ≠ '(') (rest : Str) :
    scoreOf (c :: rest) = scoreOf rest := by
  rw [scoreOf, if_neg hc]

theorem scoreOf_append {xs : Str} (h : ∀ c ∈ xs, c ≠ '(') (ys : Str) :
    scoreOf (xs ++ ys) = scoreOf ys := by
  induction xs with
  | nil => rfl
  | cons c cs ih =>
    rw [List.cons_append, scoreOf_cons_ne (h c (by simp)),
      ih (fun x hx => h x (by simp [hx]))]

/-! ### Evaluation of the parse step on each line shape -/

theorem parseLineStep_blank (st : ParsedData × Option ParsedSection) :
    parseLineStep st [] = st := rfl

theorem parseLineStep_stat (D : ParsedData) (s : ParsedSection) (l : Str)
    (h0 : pyStrip l = l) (h1 : l ≠ []) (h2 : isSectionStart l = false)
    (h3 : startsWith aiMarker l = false) (h4 : startsWith ['🚀'] l = false)
    (h5 : isStatLine l = true) :
    parseLineStep (D, some s) l = (D, some { s with stats := s.stats ++ [l] }) := by
  simp [parseLineStep, h0, h1, h2, h3, h4, h5]

theorem parseLineStep_content (D : ParsedData) (s : ParsedSection) (l : Str)
    (h0 : pyStrip l = l) (h1 : l ≠ []) (h2 : isSectionStart l = false)
    (h3 : startsWith aiMarker l = false) (h4 : startsWith ['🚀'] l = false)
    (h5 : isStatLine l = false) :
    parseLineStep (D, some s) l = (D, some { s with content := s.content ++ [l] }) := by
  simp [parseLineStep, h0, h1, h2, h3, h4, h5]

theorem parseLineStep_drop (D : ParsedData) (l : Str)
    (h2 : isSectionStart (pyStrip l) = false)
    (h3 : startsWith aiMarker (pyStrip l) = false)
    (h4 : startsWith ['🚀'] (pyStrip l) = false) :
    parseLineStep (D, none) l = (D, none) := by
  by_cases h : pyStrip l = [] <;> simp [parseLineStep, h, h2, h3, h4]

theorem parseLineStep_rocket (D : ParsedData) (cur : Option ParsedSection) (l : Str)
    (h : startsWith ['🚀'] (pyStrip l) = true) :
    parseLineStep (D, cur) l = ({ D with motivation := pyStrip l }, cur) := by
  obtain ⟨c, cs, e⟩ : ∃ c cs, pyStrip l = c :: cs := by
    cases hl : pyStrip l with
    | nil => rw [hl] at h; exact absurd h (by decide)
    | cons c cs => exact ⟨c, cs, rfl⟩
  rw [e] at h
  have hc : c = '🚀' := by
    simp only [startsWith, Bool.and_eq_true, beq_iff_eq] at h
    exact h.1.symm
  subst hc
  have o1 : isOrdinal '🚀' = false := rfl
  have o2 : startsWith aiMarker ('🚀' :: cs) = false := rfl
  simp [parseLineStep, e, isSectionStart_cons, o1, o2, h]

theorem parseLineStep_section (D : ParsedData) (cur : Option ParsedSection) (l : Str)
    (h0 : pyStrip l = l) (h1 : l ≠ []) (h2 : isSectionStart l = true) :
    parseLineStep (D, cur) l = (flushSection D cur, some (mkSection l)) := by
  simp [parseLineStep, h0, h1, h2]

theorem sectionMatch_secLine (m : Char) (title : Str) (q : ℚ)
    (hm : isOrdinal m = true) (ht1 : title ≠ [])
    (ht2 : ∀ c ∈ title, isStar c = false) :
    sectionMatch (secLine m title q) = some ([m], title) := by
  obtain ⟨t, hstar⟩ := get_star_rating_head q
  rw [secLine, sectionMatch, if_pos hm]
  have htw : ((title ++ get_star_rating q ++ " (".data ++ formatFloat1 q ++ ['分']) ++
      [')']).takeWhile (fun x => !isStar x) = title := by
    simp only [List.append_assoc]
    rw [takeWhile_append_all (fun c hc => by simp [ht2 c hc]), hstar]
    simp only [List.cons_append]
    rw [List.takeWhile_cons_of_neg (by decide), List.append_nil]
  rw [htw]
  cases title with
  | nil => exact absurd rfl ht1
  | cons x xs => rfl

theorem starsOf_secLine (m : Char) (title : Str) (q : ℚ)
    (hm : isOrdinal m = true) (ht2 : ∀ c ∈ title, isStar c = false) :
    starsOf (secLine m title q) = get_star_rating q := by
  obtain ⟨t, hstar⟩ := get_star_rating_head q
  rw [secLine, starsOf,
    List.dropWhile_cons_of_pos (by simp [ordinal_not_star hm])]
  simp only [List.append_assoc]
  rw [dropWhile_append_all (fun c hc => by simp [ht2 c hc]), hstar]
  simp only [List.cons_append]
  rw [List.dropWhile_cons_of_neg (by decide),
    List.takeWhile_cons_of_pos (by decide)]
  have ht : ∀ c ∈ t, isStar c = true := fun c hc =>
    get_star_rating_chars q c (by rw [hstar]; exact List.mem_cons_of_mem _ hc)
  rw [takeWhile_append_all ht]
  rw [List.takeWhile_cons_of_neg (by decide), List.append_nil]

theorem scoreOf_secLine (m : Char) (title : Str) (q : ℚ)
    (hm : isOrdinal m = true) (ht3 : ∀ c ∈ title, c ≠ '(') :
    scoreOf (secLine m title q) = formatFloat1 q ++ ['分'] := by
  rw [secLine, scoreOf_cons_ne (ordinal_ne_lp hm)]
  simp only [List.append_assoc]
  rw [scoreOf_append ht3,
    scoreOf_append (fun c hc => isStar_ne_lp (get_star_rating_chars q c hc))]
  have e1 : " (".data ++ (formatFloat1 q ++ (['分'] ++ [')'])) =
      ' ' :: ('(' :: (formatFloat1 q ++ ['分', ')'])) := by simp
  rw [e1, scoreOf_cons_ne (by decide), scoreOf, if_pos rfl]
  have e2 : formatFloat1 q ++ ['分', ')'] = (formatFloat1 q ++ ['分']) ++ [')'] := by simp
  have hne : ∀ c ∈ formatFloat1 q ++ ['分'], c ≠ ')' := by
    intro c hc
    rcases List.mem_append.1 hc with h1 | h1
    · exact formatFloat1_ne_rp q c h1
    · rw [List.mem_singleton.1 h1]; decide
  rw [e2, parenRunAux_append hne, show parenRunAux [')'] = some [] from rfl]
  simp

theorem mkSection_secLine (m : Char) (title : Str) (q : ℚ)
    (hm : isOrdinal m = true) (ht1 : title ≠ [])
    (ht2 : ∀ c ∈ title, isStar c = false) (ht3 : ∀ c ∈ title, c ≠ '(')
    (ht4 : pyStrip title = title) :
    mkSection (secLine m title q) =
      ⟨[m], title, get_star_rating q, formatFloat1 q ++ ['分'], [], []⟩ := by
  rw [mkSection, sectionMatch_secLine m title q hm ht1 ht2,
    starsOf_secLine m title q hm ht2, scoreOf_secLine m title q hm ht3]
  simp [ht4]

theorem parseLineStep_secLine (D : ParsedData) (cur : Option ParsedSection)
    (m : Char) (title : Str) (q : ℚ)
    (hm : isOrdinal m = true) (ht1 : title ≠ [])
    (ht2 : ∀ c ∈ title, isStar c = false) (ht3 : ∀ c ∈ title, c ≠ '(')
    (ht4 : pyStrip title = title) :
    parseLineStep (D, cur) (secLine m title q) =
      (flushSection D cur,
       some ⟨[m], title, get_star_rating q, formatFloat1 q ++ ['分'], [], []⟩) := by
  have h0 : pyStrip (secLine m title q) = secLine m title q := by
    rw [secLine]
    exact pyStrip_anchor (ordinal_not_wsp hm) (by decide) _
  have h1 : secLine m title q ≠ [] := by rw [secLine]; simp
  have h2 : isSectionStart (secLine m title q) = true := by
    rw [secLine, isSectionStart_cons]; exact hm
  rw [parseLineStep_section D cur _ h0 h1 h2,
    mkSection_secLine m title q hm ht1 ht2 ht3 ht4]

theorem parseLineStep_ai (D : ParsedData) (cur : Option ParsedSection) (a : Str)
    (hm : containsSub aiMarker a = false) :
    parseLineStep (D, cur) (aiMarker ++ a) = ({ D with ai_advice := pyStrip a }, cur) := by
  have hMne : aiMarker ≠ [] := by decide
  by_cases hsa : stripRight a = []
  · have hline : pyStrip (aiMarker ++ a) = aiMarker := by
      rw [pyStrip, stripRight_append_split, if_pos hsa]
      decide
    have hpa : pyStrip a = [] := by
      rw [← pyStrip_stripRight, hsa]; rfl
    have hrep : pyStrip (replaceAll aiMarker aiMarker []) = [] := by
      have h := replaceAll_prefix hMne (by decide : containsSub aiMarker [] = false) []
      rw [List.append_nil] at h
      rw [h]; rfl
    have h2 : isSectionStart aiMarker = false := rfl
    have h3 : startsWith aiMarker aiMarker = true := by decide
    simp [parseLineStep, hline, h2, h3, hrep, hpa, hMne]
  · have hline : pyStrip (aiMarker ++ a) = aiMarker ++ stripRight a := by
      rw [pyStrip, stripRight_append_split, if_neg hsa,
        show aiMarker ++ stripRight a = '🤖' :: (" AI建議：".data ++ stripRight a) from rfl]
      exact stripLeft_cons_of_neg (by decide) _
    have h1 : aiMarker ++ stripRight a ≠ [] := fun h =>
      hMne (List.append_eq_nil.1 h).1
    have h2 : isSectionStart (aiMarker ++ stripRight a) = false := rfl
    have h3 : startsWith aiMarker (aiMarker ++ stripRight a) = true :=
      startsWith_append_self _ _
    have hsub : containsSub aiMarker (stripRight a) = false := by
      have hd := stripRight_decomp a
      rw [hd] at hm
      have hM : aiMarker = '🤖' :: " AI建議：".data := rfl
      rw [hM] at hm ⊢
      exact containsSub_append_left hm
    have hrep : replaceAll (aiMarker ++ stripRight a) aiMarker [] = stripRight a := by
      have h := replaceAll_prefix hMne hsub []
      rwa [List.nil_append] at h
    simp [parseLineStep, hline, h1, h2, h3, hrep, pyStrip_stripRight]

/-! ### Per-line step instances -/

theorem step_head (D : ParsedData) :
    parseLineStep (D, none) ['🎓', ' ', '學', '習', '報', '告', '出', '爐', '啦', '！'] = (D, none) :=
  parseLineStep_drop _ _ (by decide) (by decide) (by decide)

theorem step_attitude (D : ParsedData) (s : ParsedSection) (x : ℚ) :
    parseLineStep (D, some s) (attitude_remark x) =
      (D, some { s with content := s.content ++ [attitude_remark x] }) := by
  rw [attitude_remark]
  split_ifs <;>
    exact parseLineStep_content _ _ _ (by decide) (by decide) (by decide) (by decide)
      (by decide) (by decide)

theorem step_effectiveness (D : ParsedData) (s : ParsedSection) (x : ℚ) :
    parseLineStep (D, some s) (effectiveness_remark x) =
      (D, some { s with content := s.content ++ [effectiveness_remark x] }) := by
  rw [effectiveness_remark]
  split_ifs <;>
    exact parseLineStep_content _ _ _ (by decide) (by decide) (by decide) (by decide)
      (by decide) (by decide)

theorem step_concentration (D : ParsedData) (s : ParsedSection) (x : ℚ) :
    parseLineStep (D, some s) (concentration_remark x) =
      (D, some { s with content := s.content ++ [concentration_remark x] }) := by
  rw [concentration_remark]
  split_ifs <;>
    exact parseLineStep_content _ _ _ (by decide) (by decide) (by decide) (by decide)
      (by decide) (by decide)

theorem step_tip_time (D : ParsedData) (s : ParsedSection) (att eff : ℚ) (u : ℕ)
    (tq : ℤ) (avg : ℚ) (hc : (u : ℚ) > (tq : ℚ) * (3 / 10)) :
    parseLineStep (D, some s) (advice_tip att eff u tq avg) =
      (D, some { s with stats := s.stats ++ [advice_tip att eff u tq avg] }) := by
  rw [advice_tip, if_pos hc]
  exact parseLineStep_stat _ _ _ (by decide) (by decide) (by decide) (by decide)
    (by decide) (by decide)

theorem step_tip_other (D : ParsedData) (s : ParsedSection) (att eff : ℚ) (u : ℕ)
    (tq : ℤ) (avg : ℚ) (hc : ¬((u : ℚ) > (tq : ℚ) * (3 / 10))) :
    parseLineStep (D, some s) (advice_tip att eff u tq avg) =
      (D, some { s with content := s.content ++ [advice_tip att eff u tq avg] }) := by
  rw [advice_tip, if_neg hc]
  split_ifs <;>
    exact parseLineStep_content _ _ _ (by decide) (by decide) (by decide) (by decide)
      (by decide) (by decide)

theorem step_statTime (D : ParsedData) (s : ParsedSection) (d : SessionData) :
    parseLineStep (D, some s) (statLineTime d) =
      (D, some { s with stats := s.stats ++ [statLineTime d] }) := by
  refine parseLineStep_stat _ _ _ ?_ ?_ rfl rfl rfl rfl
  · rw [statLineTime]; exact pyStrip_anchor (by decide) (by decide) _
  · rw [statLineTime]; simp

theorem step_statCorrect (D : ParsedData) (s : ParsedSection) (d : SessionData) :
    parseLineStep (D, some s) (statLineCorrect d) =
      (D, some { s with stats := s.stats ++ [statLineCorrect d] }) := by
  refine parseLineStep_stat _ _ _ ?_ ?_ rfl rfl rfl rfl
  · rw [statLineCorrect]; exact pyStrip_anchor (by decide) (by decide) _
  · rw [statLineCorrect]; simp

theorem step_statWrong (D : ParsedData) (s : ParsedSection) (d : SessionData) :
    parseLineStep (D, some s) (statLineWrong d) =
      (D, some { s with stats := s.stats ++ [statLineWrong d] }) := by
  refine parseLineStep_stat _ _ _ ?_ ?_ rfl rfl rfl rfl
  · rw [statLineWrong]; exact pyStrip_anchor (by decide) (by decide) _
  · rw [statLineWrong]; simp

theorem step_statUnanswered (D : ParsedData) (s : ParsedSection) (d : SessionData) :
    parseLineStep (D, some s) (statLineUnanswered d) =
      (D, some { s with stats := s.stats ++ [statLineUnanswered d] }) := by
  refine parseLineStep_stat _ _ _ ?_ ?_ rfl rfl rfl rfl
  · rw [statLineUnanswered]; exact pyStrip_anchor (by decide) (by decide) _
  · rw [statLineUnanswered]; simp

theorem step_statAvg (D : ParsedData) (s : ParsedSection) (d : SessionData) :
    parseLineStep (D, some s) (statLineAvg d) =
      (D, some { s with stats := s.stats ++ [statLineAvg d] }) := by
  refine parseLineStep_stat _ _ _ ?_ ?_ rfl rfl rfl rfl
  · rw [statLineAvg]; exact pyStrip_anchor (by decide) (by decide) _
  · rw [statLineAvg]; simp

theorem step_hint (D : ParsedData) (s : ParsedSection) :
    parseLineStep (D, some s) ['💭', ' ', 'A', 'I', '小', '老', '師', '的', '貼', '心', '建', '議', '：'] =
      (D, some { s with content := s.content ++ [['💭', ' ', 'A', 'I', '小', '老', '師', '的', '貼', '心', '建', '議', '：']] }) :=
  parseLineStep_content _ _ _ (by decide) (by decide) (by decide) (by decide)
    (by decide) (by decide)

theorem step_rocket (D : ParsedData) (cur : Option ParsedSection) :
    parseLineStep (D, cur) ['🚀', ' ', '加', '油', '！', '每', '一', '次', '學', '習', '都', '讓', '你', '更', '接', '近', '目', '標', '！'] =
      ({ D with motivation := ['🚀', ' ', '加', '油', '！', '每', '一', '次', '學', '習', '都', '讓', '你', '更', '接', '近', '目', '標', '！'] }, cur) := by
  have h := parseLineStep_rocket D cur ['🚀', ' ', '加', '油', '！', '每', '一', '次', '學', '習', '都', '讓', '你', '更', '接', '近', '目', '標', '！'] (by decide)
  rwa [show pyStrip ['🚀', ' ', '加', '油', '！', '每', '一', '次', '學', '習', '都', '讓', '你', '更', '接', '近', '目', '標', '！'] = ['🚀', ' ', '加', '油', '！', '每', '一', '次', '學', '習', '都', '讓', '你', '更', '接', '近', '目', '標', '！'] from by decide] at h

/-! ### No newline inside any composed line -/

theorem noNL_gsr (q : ℚ) : '\n' ∉ get_star_rating q :=
  fun h => isStar_ne_nl (get_star_rating_chars q _ h) rfl

theorem noNL_fmt (q : ℚ) : '\n' ∉ formatFloat1 q :=
  fun h => formatFloat1_ne_nl q _ h rfl

theorem noNL_natStr (n : ℕ) : '\n' ∉ natStr n :=
  fun h => natStr_ne_nl n _ h rfl

theorem noNL_secLine (m : Char) (title : Str) (q : ℚ) (hmn : ¬('\n' = m))
    (htn : '\n' ∉ title) : '\n' ∉ secLine m title q := by
  rw [secLine]
  exact List.not_mem_cons_of_ne_of_not_mem hmn
    (List.not_mem_append
      (List.not_mem_append
        (List.not_mem_append
          (List.not_mem_append
            (List.not_mem_append htn (noNL_gsr q))
            (by decide))
          (noNL_fmt q))
        (by decide))
      (by decide))

theorem noNL_statLineTime (d : SessionData) : '\n' ∉ statLineTime d := by
  rw [statLineTime]
  exact List.not_mem_cons_of_ne_of_not_mem (by decide)
    (List.not_mem_append
      (List.not_mem_append
        (List.not_mem_append (by decide) (noNL_fmt _))
        (by decide))
      (by decide))

theorem noNL_statLineCorrect (d : SessionData) : '\n' ∉ statLineCorrect d := by
  rw [statLineCorrect]
  exact List.not_mem_cons_of_ne_of_not_mem (by decide)
    (List.not_mem_append (List.not_mem_append (by decide) (noNL_natStr _)) (by decide))

theorem noNL_statLineWrong (d : SessionData) : '\n' ∉ statLineWrong d := by
  rw [statLineWrong]
  exact List.not_mem_cons_of_ne_of_not_mem (by decide)
    (List.not_mem_append (List.not_mem_append (by decide) (noNL_natStr _)) (by decide))

theorem noNL_statLineUnanswered (d : SessionData) : '\n' ∉ statLineUnanswered d := by
  rw [statLineUnanswered]
  exact List.not_mem_cons_of_ne_of_not_mem (by decide)
    (List.not_mem_append
      (List.not_mem_cons_of_ne_of_not_mem (by decide)
        (List.not_mem_append (by decide) (noNL_natStr _)))
      (by decide))

theorem noNL_statLineAvg (d : SessionData) : '\n' ∉ statLineAvg d := by
  rw [statLineAvg]
  exact List.not_mem_cons_of_ne_of_not_mem (by decide)
    (List.not_mem_append
      (List.not_mem_append (by decide) (noNL_fmt _))
      (by decide))

theorem noNL_attitude (x : ℚ) : '\n' ∉ attitude_remark x := by
  rw [attitude_remark]; split_ifs <;> decide

theorem noNL_effectiveness (x : ℚ) : '\n' ∉ effectiveness_remark x := by
  rw [effectiveness_remark]; split_ifs <;> decide

theorem noNL_concentration (x : ℚ) : '\n' ∉ concentration_remark x := by
  rw [concentration_remark]; split_ifs <;> decide

theorem noNL_adviceLine (d : SessionData) : '\n' ∉ adviceLineOf d := by
  rw [adviceLineOf, advice_tip]; split_ifs <;> decide

set_option maxHeartbeats 1600000 in
/-- The composed message splits into exactly the expected line list. -/
theorem message_lines (d : SessionData) (a : Str) (ha : '\n' ∉ a) :
    splitLines (generate_learning_message d a) = lineList d a := by
  have hjoin : generate_learning_message d a = joinLines (lineList d a) := by
    by_cases hu : 0 < d.unansweredCount
    · simp only [generate_learning_message, lineList, if_pos hu, joinLines,
        secLine, statLineTime, statLineCorrect, statLineWrong, statLineUnanswered,
        statLineAvg, adviceLineOf, aiMarker,
        List.cons_append, List.append_assoc, List.nil_append, List.append_nil,
        List.singleton_append]
    · simp only [generate_learning_message, lineList, if_neg hu, joinLines,
        secLine, statLineTime, statLineCorrect, statLineWrong, statLineUnanswered,
        statLineAvg, adviceLineOf, aiMarker,
        List.cons_append, List.append_assoc, List.nil_append, List.append_nil,
        List.singleton_append]
  rw [hjoin]
  apply splitLines_joinLines
  · by_cases hu : 0 < d.unansweredCount <;> simp [lineList, hu]
  · by_cases hu : 0 < d.unansweredCount <;>
      simp only [lineList, hu, if_true, if_false, List.forall_mem_append,
        List.forall_mem_cons, List.forall_mem_nil, and_true, true_and] <;>
      repeat' constructor
    all_goals first
      | decide
      | exact noNL_secLine _ _ _ (by decide) (by decide)
      | exact noNL_attitude _
      | exact noNL_effectiveness _
      | exact noNL_concentration _
      | exact noNL_statLineTime d
      | exact noNL_statLineCorrect d
      | exact noNL_statLineWrong d
      | exact noNL_statLineUnanswered d
      | exact noNL_statLineAvg d
      | exact noNL_adviceLine d
      | exact List.not_mem_append (by decide) ha

theorem step_sec1 (D : ParsedData) (cur : Option ParsedSection) (q : ℚ) :
    parseLineStep (D, cur) (secLine '❶' ['學', '習', '態', '度'] q) =
      (flushSection D cur,
       some ⟨['❶'], ['學', '習', '態', '度'], get_star_rating q, formatFloat1 q ++ ['分'], [], []⟩) :=
  parseLineStep_secLine D cur '❶' _ q (by decide) (by decide) (by decide) (by decide)
    (by decide)

theorem step_sec2 (D : ParsedData) (cur : Option ParsedSection) (q : ℚ) :
    parseLineStep (D, cur) (secLine '❷' ['學', '習', '成', '效'] q) =
      (flushSection D cur,
       some ⟨['❷'], ['學', '習', '成', '效'], get_star_rating q, formatFloat1 q ++ ['分'], [], []⟩) :=
  parseLineStep_secLine D cur '❷' _ q (by decide) (by decide) (by decide) (by decide)
    (by decide)

theorem step_sec3 (D : ParsedData) (cur : Option ParsedSection) (q : ℚ) :
    parseLineStep (D, cur) (secLine '❸' ['學', '習', '專', '心', '度'] q) =
      (flushSection D cur,
       some ⟨['❸'], ['學', '習', '專', '心', '度'], get_star_rating q, formatFloat1 q ++ ['分'], [], []⟩) :=
  parseLineStep_secLine D cur '❸' _ q (by decide) (by decide) (by decide) (by decide)
    (by decide)

set_option maxHeartbeats 1600000 in
/-- Parsing a composed report: the full symbolic computation.  Requires the
advice string to contain no newline and no occurrence of the AI marker. -/
theorem parse_message (d : SessionData) (a : Str) (ha : '\n' ∉ a)
    (hm : containsSub aiMarker a = false) :
    parse_learning_data (splitLines (generate_learning_message d a)) =
      expectedParse d a := by
  rw [message_lines d a ha]
  simp only [parse_learning_data]
  by_cases hu : 0 < d.unansweredCount
  · simp only [lineList, if_pos hu, List.cons_append, List.nil_append,
      List.singleton_append, List.foldl_cons, List.foldl_nil,
      step_head, parseLineStep_blank, step_sec1, step_attitude, step_statTime,
      step_sec2, step_effectiveness, step_statCorrect, step_statWrong,
      step_statUnanswered, step_sec3, step_concentration, step_statAvg, step_hint]
    by_cases hc : (d.unansweredCount : ℚ) > (resolveTQ d : ℚ) * (3 / 10)
    · rw [adviceLineOf, step_tip_time _ _ _ _ _ _ _ hc]
      simp only [parseLineStep_blank, step_rocket]
      rw [parseLineStep_ai _ _ _ hm]
      simp [flushSection, expectedParse, sec1, sec2, sec3, adviceLineOf,
        if_pos hu, if_pos hc]
    · rw [adviceLineOf, step_tip_other _ _ _ _ _ _ _ hc]
      simp only [parseLineStep_blank, step_rocket]
      rw [parseLineStep_ai _ _ _ hm]
      simp [flushSection, expectedParse, sec1, sec2, sec3, adviceLineOf,
        if_pos hu, if_neg hc]
  · simp only [lineList, if_neg hu, List.cons_append, List.nil_append,
      List.singleton_append, List.foldl_cons, List.foldl_nil,
      step_head, parseLineStep_blank, step_sec1, step_attitude, step_statTime,
      step_sec2, step_effectiveness, step_statCorrect, step_statWrong,
      step_statUnanswered, step_sec3, step_concentration, step_statAvg, step_hint]
    by_cases hc : (d.unansweredCount : ℚ) > (resolveTQ d : ℚ) * (3 / 10)
    · rw [adviceLineOf, step_tip_time _ _ _ _ _ _ _ hc]
      simp only [parseLineStep_blank, step_rocket]
      rw [parseLineStep_ai _ _ _ hm]
      simp [flushSection, expectedParse, sec1, sec2, sec3, adviceLineOf,
        if_neg hu, if_pos hc]
    · rw [adviceLineOf, step_tip_other _ _ _ _ _ _ _ hc]
      simp only [parseLineStep_blank, step_rocket]
      rw [parseLineStep_ai _ _ _ hm]
      simp [flushSection, expectedParse, sec1, sec2, sec3, adviceLineOf,
        if_neg hu, if_neg hc]

/-! ### Section counting -/

theorem flushSection_length (D : ParsedData) (cur : Option ParsedSection) :
    (flushSection D cur).sections.length = D.sections.length + openCount cur := by
  cases cur <;> simp [flushSection, openCount]

theorem parseLineStep_count (st : ParsedData × Option ParsedSection) (l : Str) :
    (parseLineStep st l).1.sections.length + openCount (parseLineStep st l).2 =
      st.1.sections.length + openCount st.2 +
        (if isSectionStart (pyStrip l) = true then 1 else 0) := by
  obtain ⟨D, cur⟩ := st
  by_cases h1 : pyStrip l = []
  · simp [parseLineStep, h1, show isSectionStart ([] : Str) = false from rfl]
  · by_cases h2 : isSectionStart (pyStrip l) = true
    · simp [parseLineStep, h1, h2, flushSection_length, openCount]
    · by_cases h3 : startsWith aiMarker (pyStrip l) = true
      · simp [parseLineStep, h1, h2, h3, openCount]
      · by_cases h4 : startsWith ['🚀'] (pyStrip l) = true
        · simp [parseLineStep, h1, h2, h3, h4, openCount]
        · cases cur with
          | some s =>
            by_cases h5 : isStatLine (pyStrip l) = true <;>
              simp [parseLineStep, h1, h2, h3, h4, h5, openCount]
          | none => simp [parseLineStep, h1, h2, h3, h4, openCount]

theorem foldl_count (lines : List Str) :
    ∀ st : ParsedData × Option ParsedSection,
      (lines.foldl parseLineStep st).1.sections.length +
          openCount (lines.foldl parseLineStep st).2 =
        st.1.sections.length + openCount st.2 +
          lines.countP (fun l => isSectionStart (pyStrip l)) := by
  induction lines with
  | nil => intro st; rfl
  | cons l ls ih =>
    intro st
    rw [List.foldl_cons, ih (parseLineStep st l), parseLineStep_count st l,
      List.countP_cons]
    omega

/-- The parser emits exactly one section per section-marker line. -/
theorem parse_sections_count (lines : List Str) :
    (parse_learning_data lines).sections.length =
      lines.countP (fun l => isSectionStart (pyStrip l)) := by
  simp only [parse_learning_data]
  rw [flushSection_length]
  have h := foldl_count lines (⟨[], [], []⟩, none)
  simpa [openCount] using h

/-! ### Renderer facts -/

theorem create_modern_section_isSome (s : ParsedSection) (i : ℕ) :
    ∃ cards, create_modern_section s i = some cards := by
  have h : i % 3 = 0 ∨ i % 3 = 1 ∨ i % 3 = 2 := by omega
  rcases h with h | h | h <;> rw [create_modern_section, h] <;> exact ⟨_, rfl⟩

theorem bodySections_isSome (l : List ParsedSection) :
    ∀ i : ℕ, ∃ cs, bodySections l i = some cs := by
  induction l with
  | nil => intro i; exact ⟨[], rfl⟩
  | cons s rest ih =>
    intro i
    obtain ⟨cards, hc⟩ := create_modern_section_isSome s i
    obtain ⟨tail, ht⟩ := ih (i + 1)
    exact ⟨_, by rw [bodySections, hc, ht]⟩

theorem create_body_isSome (d : ParsedData) : ∃ t, create_body d = some t := by
  obtain ⟨cs, h⟩ := bodySections_isSome d.sections 0
  exact ⟨_, by rw [create_body, h]⟩

theorem create_modern_section_cycle (s : ParsedSection) (i : ℕ) :
    create_modern_section s (i + 3) = create_modern_section s i := by
  rw [create_modern_section, create_modern_section, Nat.add_mod_right]

theorem create_modern_section_color (s : ParsedSection) (i : ℕ) :
    ∃ cards, create_modern_section s i = some cards ∧
      headBg cards = (colors.get? (i % 3)).map (fun c => c.bg) := by
  have h : i % 3 = 0 ∨ i % 3 = 1 ∨ i % 3 = 2 := by omega
  rcases h with h | h | h <;> rw [create_modern_section, h] <;>
    exact ⟨_, rfl, by simp [headBg, colors]⟩

/-! ### Head-marker checks of each composed line (for the stat-line claims) -/

theorem sw_headline  :
    startsWith ['⏸', '️'] (['🎓', ' ', '學', '習', '報', '告', '出', '爐', '啦', '！']) = false ∧
    startsWith ['✅'] (['🎓', ' ', '學', '習', '報', '告', '出', '爐', '啦', '！']) = false ∧
    startsWith ['❌'] (['🎓', ' ', '學', '習', '報', '告', '出', '爐', '啦', '！']) = false := ⟨rfl, rfl, rfl⟩

theorem sw_nil  :
    startsWith ['⏸', '️'] (([] : Str)) = false ∧
    startsWith ['✅'] (([] : Str)) = false ∧
    startsWith ['❌'] (([] : Str)) = false := ⟨rfl, rfl, rfl⟩

theorem sw_sec1 (q : ℚ) :
    startsWith ['⏸', '️'] (secLine '❶' ['學', '習', '態', '度'] q) = false ∧
    startsWith ['✅'] (secLine '❶' ['學', '習', '態', '度'] q) = false ∧
    startsWith ['❌'] (secLine '❶' ['學', '習', '態', '度'] q) = false := ⟨rfl, rfl, rfl⟩

theorem sw_sec2 (q : ℚ) :
    startsWith ['⏸', '️'] (secLine '❷' ['學', '習', '成', '效'] q) = false ∧
    startsWith ['✅'] (secLine '❷' ['學', '習', '成', '效'] q) = false ∧
    startsWith ['❌'] (secLine '❷' ['學', '習', '成', '效'] q) = false := ⟨rfl, rfl, rfl⟩

theorem sw_sec3 (q : ℚ) :
    startsWith ['⏸', '️'] (secLine '❸' ['學', '習', '專', '心', '度'] q) = false ∧
    startsWith ['✅'] (secLine '❸' ['學', '習', '專', '心', '度'] q) = false ∧
    startsWith ['❌'] (secLine '❸' ['學', '習', '專', '心', '度'] q) = false := ⟨rfl, rfl, rfl⟩

theorem sw_attitude (x : ℚ) :
    startsWith ['⏸', '️'] (attitude_remark x) = false ∧
    startsWith ['✅'] (attitude_remark x) = false ∧
    startsWith ['❌'] (attitude_remark x) = false := by
  rw [attitude_remark]; split_ifs <;> exact ⟨rfl, rfl, rfl⟩


theorem sw_effectiveness (x : ℚ) :
    startsWith ['⏸', '️'] (effectiveness_remark x) = false ∧
    startsWith ['✅'] (effectiveness_remark x) = false ∧
    startsWith ['❌'] (effectiveness_remark x) = false := by
  rw [effectiveness_remark]; split_ifs <;> exact ⟨rfl, rfl, rfl⟩


theorem sw_concentration (x : ℚ) :
    startsWith ['⏸', '️'] (concentration_remark x) = false ∧
    startsWith ['✅'] (concentration_remark x) = false ∧
    startsWith ['❌'] (concentration_remark x) = false := by
  rw [concentration_remark]; split_ifs <;> exact ⟨rfl, rfl, rfl⟩


theorem sw_statTime (d : SessionData) :
    startsWith ['⏸', '️'] (statLineTime d) = false ∧
    startsWith ['✅'] (statLineTime d) = false ∧
    startsWith ['❌'] (statLineTime d) = false := ⟨rfl, rfl, rfl⟩

theorem sw_statCorrect (d : SessionData) :
    startsWith ['⏸', '️'] (statLineCorrect d) = false ∧
    startsWith ['✅'] (statLineCorrect d) = true ∧
    startsWith ['❌'] (statLineCorrect d) = false := ⟨rfl, rfl, rfl⟩

theorem sw_statWrong (d : SessionData) :
    startsWith ['⏸', '️'] (statLineWrong d) = false ∧
    startsWith ['✅'] (statLineWrong d) = false ∧
    startsWith ['❌'] (statLineWrong d) = true := ⟨rfl, rfl, rfl⟩

theorem sw_statUnanswered (d : SessionData) :
    startsWith ['⏸', '️'] (statLineUnanswered d) = true ∧
    startsWith ['✅'] (statLineUnanswered d) = false ∧
    startsWith ['❌'] (statLineUnanswered d) = false := ⟨rfl, rfl, rfl⟩

theorem sw_statAvg (d : SessionData) :
    startsWith ['⏸', '️'] (statLineAvg d) = false ∧
    startsWith ['✅'] (statLineAvg d) = false ∧
    startsWith ['❌'] (statLineAvg d) = false := ⟨rfl, rfl, rfl⟩

theorem sw_hintline  :
    startsWith ['⏸', '️'] (['💭', ' ', 'A', 'I', '小', '老', '師', '的', '貼', '心', '建', '議', '：']) = false ∧
    startsWith ['✅'] (['💭', ' ', 'A', 'I', '小', '老', '師', '的', '貼', '心', '建', '議', '：']) = false ∧
    startsWith ['❌'] (['💭', ' ', 'A', 'I', '小', '老', '師', '的', '貼', '心', '建', '議', '：']) = false := ⟨rfl, rfl, rfl⟩

theorem sw_adviceLine (d : SessionData) :
    startsWith ['⏸', '️'] (adviceLineOf d) = false ∧
    startsWith ['✅'] (adviceLineOf d) = false ∧
    startsWith ['❌'] (adviceLineOf d) = false := by
  rw [adviceLineOf, advice_tip]; split_ifs <;> exact ⟨rfl, rfl, rfl⟩


theorem sw_rocketline  :
    startsWith ['⏸', '️'] (['🚀', ' ', '加', '油', '！', '每', '一', '次', '學', '習', '都', '讓', '你', '更', '接', '近', '目', '標', '！']) = false ∧
    startsWith ['✅'] (['🚀', ' ', '加', '油', '！', '每', '一', '次', '學', '習', '都', '讓', '你', '更', '接', '近', '目', '標', '！']) = false ∧
    startsWith ['❌'] (['🚀', ' ', '加', '油', '！', '每', '一', '次', '學', '習', '都', '讓', '你', '更', '接', '近', '目', '標', '！']) = false := ⟨rfl, rfl, rfl⟩

theorem sw_aiLine (a : Str) :
    startsWith ['⏸', '️'] (aiMarker ++ a) = false ∧
    startsWith ['✅'] (aiMarker ++ a) = false ∧
    startsWith ['❌'] (aiMarker ++ a) = false := ⟨rfl, rfl, rfl⟩

/-! ### Claims -/

/-- Claim C1: for every score in [0, 100], the number of filled glyphs equals
`clamp (round (s / 20)) 1 5`, filled and empty glyphs sum to 5, and the
rendered star string has exactly 5 glyphs. -/
theorem claim_C1 (s : ℚ) (h0 : 0 ≤ s) (h1 : s ≤ 100) :
    filledStars s = clamp (pyRound (s / 20)) 1 5 ∧
    filledStars s + emptyStars s = 5 ∧
    (get_star_rating s).length = 5 := by
  refine ⟨rfl, ?_, get_star_rating_length s⟩
  rw [emptyStars]
  ring

theorem claim_C1_witness :
    (0 : ℚ) ≤ 85 ∧ (85 : ℚ) ≤ 100 ∧
      (filledStars 85 = clamp (pyRound (85 / 20)) 1 5 ∧
       filledStars 85 + emptyStars 85 = 5 ∧ (get_star_rating 85).length = 5) :=
  ⟨by norm_num, by norm_num, claim_C1 85 (by norm_num) (by norm_num)⟩

set_option maxRecDepth 10000 in
/-- Claim C2 counterexample: an advice string containing a newline loses its
second line (so `aiAdvice` is not the trimmed advice), an advice string
containing the AI marker has every occurrence stripped, and a newline advice
whose second line starts with a section ordinal yields four sections. -/
theorem claim_C2_counterexample :
    (parse_learning_data (splitLines (generate_learning_message ceSession
        ['a', '\n', 'b']))).ai_advice ≠ pyStrip ['a', '\n', 'b'] ∧
    (parse_learning_data (splitLines (generate_learning_message ceSession
        "x🤖 AI建議：y".data))).ai_advice ≠ pyStrip "x🤖 AI建議：y".data ∧
    (parse_learning_data (splitLines (generate_learning_message ceSession
        "c\n❶q".data))).sections.length ≠ 3 :=
  ⟨by decide, by decide, by decide⟩

/-- Claim C2 (amended): for every session and every advice string that
contains no newline and no occurrence of the AI marker, parsing the composed
report yields exactly 3 sections, each with a star string of exactly 5 glyphs
(in particular non-empty), and `ai_advice` equal to the stripped advice. -/
theorem claim_C2 (d : SessionData) (a : Str) (ha : '\n' ∉ a)
    (hm : containsSub aiMarker a = false) :
    (parse_learning_data (splitLines (generate_learning_message d a))).sections.length
        = 3 ∧
    (∀ s ∈ (parse_learning_data (splitLines (generate_learning_message d a))).sections,
        s.stars.length = 5 ∧ s.stars ≠ []) ∧
    (parse_learning_data (splitLines (generate_learning_message d a))).ai_advice
        = pyStrip a := by
  rw [parse_message d a ha hm]
  refine ⟨rfl, ?_, rfl⟩
  intro s hs
  have hlen : s.stars.length = 5 := by
    simp only [expectedParse, List.mem_cons, List.not_mem_nil, or_false] at hs
    rcases hs with rfl | rfl | rfl <;> exact get_star_rating_length _
  exact ⟨hlen, fun e => by rw [e] at hlen; simp at hlen⟩

theorem claim_C2_witness :
    '\n' ∉ demoAdvice ∧ containsSub aiMarker demoAdvice = false ∧
    ((parse_learning_data (splitLines (generate_learning_message demoSession
        demoAdvice))).sections.length = 3 ∧
     (∀ s ∈ (parse_learning_data (splitLines (generate_learning_message demoSession
        demoAdvice))).sections, s.stars.length = 5 ∧ s.stars ≠ []) ∧
     (parse_learning_data (splitLines (generate_learning_message demoSession
        demoAdvice))).ai_advice = pyStrip demoAdvice) :=
  ⟨by decide, by decide, claim_C2 demoSession demoAdvice (by decide) (by decide)⟩

/-- Claim C3 counterexample: on a session whose `totalQuestions` entry is the
callable produced by `generate_fake_data`, the call mutates the input dict in
place (line 169), so the record is not left unchanged. -/
theorem claim_C3_counterexample : resolveSession cbSession ≠ cbSession := by decide

/-- Claim C3 (amended): with the AI advice passed as an explicit input, the
composer is a total deterministic function; the input record is left
unchanged when `totalQuestions` is already numeric, while a callable
`totalQuestions` is overwritten in place with the computed sum, and the
composed text only depends on the resolved record. -/
theorem claim_C3 :
    (∀ (d : SessionData) (n : ℤ), d.totalQuestions = TQField.value n →
        resolveSession d = d) ∧
    (∀ d : SessionData, d.totalQuestions = TQField.callable →
        resolveSession d =
          { d with totalQuestions :=
              TQField.value ((d.correctCount : ℤ) + d.wrongCount + d.unansweredCount) }) ∧
    (∀ (d : SessionData) (a : Str),
        generate_learning_message (resolveSession d) a
          = generate_learning_message d a) := by
  refine ⟨?_, ?_, ?_⟩
  · intro d n h; simp [resolveSession, h]
  · intro d h; simp [resolveSession, resolveTQ, h]
  · intro d a
    cases h : d.totalQuestions with
    | value n => rw [show resolveSession d = d from by simp [resolveSession, h]]
    | callable => simp [generate_learning_message, resolveSession, resolveTQ, h]

theorem claim_C3_witness :
    resolveSession demoSession = demoSession ∧
    resolveSession cbSession =
      { cbSession with totalQuestions :=
          TQField.value ((cbSession.correctCount : ℤ) + cbSession.wrongCount + cbSession.unansweredCount) } ∧
    generate_learning_message (resolveSession demoSession) demoAdvice
      = generate_learning_message demoSession demoAdvice :=
  ⟨claim_C3.1 demoSession 12 rfl, claim_C3.2.1 cbSession rfl,
   claim_C3.2.2 demoSession demoAdvice⟩

set_option maxRecDepth 10000 in
/-- Claim C4 counterexample: a numeric `totalQuestions` arriving in the
payload is used exactly as supplied, even when it disagrees with the sum of
the three counts, and the disagreement is observable in the composed text. -/
theorem claim_C4_counterexample :
    (resolveSession tqSession).totalQuestions ≠ TQField.value
      ((tqSession.correctCount : ℤ) + tqSession.wrongCount +
        tqSession.unansweredCount) ∧
    generate_learning_message tqSession ['x'] ≠
      generate_learning_message
        { tqSession with totalQuestions := TQField.value 3 } ['x'] :=
  ⟨by decide, by decide⟩

/-- Claim C4 (amended): `totalQuestions` is recomputed as the sum of the
three counts exactly when it is supplied as the callable (as the internal
generator supplies it); a numeric value supplied in an external payload is
taken as-is. -/
theorem claim_C4 :
    (∀ d : SessionData, d.totalQuestions = TQField.callable →
        resolveTQ d = (d.correctCount : ℤ) + d.wrongCount + d.unansweredCount) ∧
    (∀ (d : SessionData) (n : ℤ), d.totalQuestions = TQField.value n →
        resolveTQ d = n) := by
  constructor
  · intro d h; simp [resolveTQ, h]
  · intro d n h; simp [resolveTQ, h]

theorem claim_C4_witness :
    resolveTQ cbSession = (cbSession.correctCount : ℤ) + cbSession.wrongCount +
      cbSession.unansweredCount ∧
    resolveTQ tqSession = 999 :=
  ⟨claim_C4.1 cbSession rfl, claim_C4.2 tqSession 999 rfl⟩

/-- Claim C5: the personalised advice line is chosen by the first matching
condition in the fixed priority order (time-management tip whenever
`unanswered > 0.3 * total`, regardless of any score), and the chosen line
occurs in the composed report. -/
theorem claim_C5 :
    (∀ (att eff : ℚ) (u : ℕ) (tq : ℤ) (avg : ℚ),
      ((u : ℚ) > (tq : ℚ) * (3 / 10) →
        advice_tip att eff u tq avg = "⏰ 有不少題目還沒完成，建議合理安排時間喔！".data) ∧
      (¬((u : ℚ) > (tq : ℚ) * (3 / 10)) → att < 60 → eff < 70 →
        advice_tip att eff u tq avg = "🎯 建議先提升專注力，可以試試番茄鐘學習法！".data) ∧
      (¬((u : ℚ) > (tq : ℚ) * (3 / 10)) → ¬(att < 60 ∧ eff < 70) → eff < 70 →
        advice_tip att eff u tq avg = "📖 多花點時間在PDF閱讀上，基礎打穩很重要！".data) ∧
      (¬((u : ℚ) > (tq : ℚ) * (3 / 10)) → ¬(att < 60 ∧ eff < 70) → ¬(eff < 70) →
        avg > 30 →
        advice_tip att eff u tq avg = "⚡ 可以多做練習題來提升答題速度喔！".data) ∧
      (¬((u : ℚ) > (tq : ℚ) * (3 / 10)) → ¬(att < 60 ∧ eff < 70) → ¬(eff < 70) →
        ¬(avg > 30) →
        advice_tip att eff u tq avg = "🌈 你的學習狀態很棒！繼續保持這個節奏！".data)) ∧
    (∀ (d : SessionData) (a : Str), '\n' ∉ a →
      adviceLineOf d ∈ splitLines (generate_learning_message d a)) := by
  constructor
  · intro att eff u tq avg
    refine ⟨fun h1 => ?_, fun h1 h2 h3 => ?_, fun h1 h2 h3 => ?_,
      fun h1 h2 h3 h4 => ?_, fun h1 h2 h3 h4 => ?_⟩
    · rw [advice_tip, if_pos h1]
    · rw [advice_tip, if_neg h1, if_pos ⟨h2, h3⟩]
    · rw [advice_tip, if_neg h1, if_neg h2, if_pos h3]
    · rw [advice_tip, if_neg h1, if_neg h2, if_neg h3, if_pos h4]
    · rw [advice_tip, if_neg h1, if_neg h2, if_neg h3, if_neg h4]
  · intro d a ha
    rw [message_lines d a ha]
    by_cases hu : 0 < d.unansweredCount <;> simp [lineList, hu]

theorem claim_C5_witness :
    ((4 : ℚ) > ((10 : ℤ) : ℚ) * (3 / 10) ∧
      advice_tip 80 80 4 10 12 = "⏰ 有不少題目還沒完成，建議合理安排時間喔！".data) ∧
    ('\n' ∉ demoAdvice ∧
      adviceLineOf demoSession ∈
        splitLines (generate_learning_message demoSession demoAdvice)) :=
  ⟨⟨by norm_num, (claim_C5.1 80 80 4 10 12).1 (by norm_num)⟩,
   ⟨by decide, claim_C5.2 demoSession demoAdvice (by decide)⟩⟩

/-- Claim C6: the concentration remark is chosen solely from
`avgAnswerTime` with thresholds 10 and 30, and in the parsed report the
first content line of section 3 equals that remark whatever the
`concentrationScore` is (the score only affects the star string and the
numeric score of the section). -/
theorem claim_C6 :
    (∀ avg : ℚ,
      (avg ≤ 10 → concentration_remark avg = "⚡ 反應神速！但記得要仔細思考喔！".data) ∧
      (10 < avg → avg ≤ 30 →
        concentration_remark avg = "⏱️ 思考速度剛好，很穩健的學習節奏！".data) ∧
      (30 < avg → concentration_remark avg = "🐌 慢工出細活，但可以試著提高一點效率！".data)) ∧
    (∀ (d : SessionData) (c : ℚ) (a : Str), '\n' ∉ a →
      containsSub aiMarker a = false →
      ∃ s3, (parse_learning_data (splitLines (generate_learning_message
          { d with concentrationScore := c } a))).sections.get? 2 = some s3 ∧
        s3.content.head? = some (concentration_remark d.avgAnswerTime)) := by
  constructor
  · intro avg
    refine ⟨fun h1 => ?_, fun h1 h2 => ?_, fun h1 => ?_⟩
    · rw [concentration_remark, if_pos h1]
    · rw [concentration_remark, if_neg (by linarith), if_pos h2]
    · rw [concentration_remark, if_neg (by linarith), if_neg (by linarith)]
  · intro d c a ha hm
    rw [parse_message { d with concentrationScore := c } a ha hm]
    refine ⟨sec3 { d with concentrationScore := c }, rfl, ?_⟩
    simp [sec3]

theorem claim_C6_witness :
    (10 < (12 : ℚ) ∧ (12 : ℚ) ≤ 30 ∧
      concentration_remark 12 = "⏱️ 思考速度剛好，很穩健的學習節奏！".data) ∧
    (∃ s3, (parse_learning_data (splitLines (generate_learning_message
        { demoSession with concentrationScore := 55 } demoAdvice))).sections.get? 2
          = some s3 ∧
      s3.content.head? = some (concentration_remark demoSession.avgAnswerTime)) :=
  ⟨⟨by norm_num, by norm_num, (claim_C6.1 12).2.1 (by norm_num) (by norm_num)⟩,
   claim_C6.2 demoSession 55 demoAdvice (by decide) (by decide)⟩

/-- Claim C7: the composed report has a line starting with the pause marker
(the "未作答" stat line) exactly when `unansweredCount > 0`, while lines
starting with the correct-count and wrong-count markers are always present. -/
theorem claim_C7 (d : SessionData) (a : Str) (ha : '\n' ∉ a) :
    ((splitLines (generate_learning_message d a)).any
        (fun l => startsWith ['⏸', '️'] l) = true ↔ 0 < d.unansweredCount) ∧
    (splitLines (generate_learning_message d a)).any
        (fun l => startsWith ['✅'] l) = true ∧
    (splitLines (generate_learning_message d a)).any
        (fun l => startsWith ['❌'] l) = true := by
  rw [message_lines d a ha]
  by_cases hu : 0 < d.unansweredCount <;>
    simp [lineList, hu, sw_headline, sw_nil, sw_sec1, sw_sec2, sw_sec3,
      sw_attitude, sw_effectiveness, sw_concentration, sw_statTime,
      sw_statCorrect, sw_statWrong, sw_statUnanswered, sw_statAvg,
      sw_hintline, sw_adviceLine, sw_rocketline, sw_aiLine]

theorem claim_C7_witness :
    '\n' ∉ demoAdvice ∧
    (((splitLines (generate_learning_message demoSession demoAdvice)).any
        (fun l => startsWith ['⏸', '️'] l) = true ↔
          0 < demoSession.unansweredCount) ∧
     (splitLines (generate_learning_message demoSession demoAdvice)).any
        (fun l => startsWith ['✅'] l) = true ∧
     (splitLines (generate_learning_message demoSession demoAdvice)).any
        (fun l => startsWith ['❌'] l) = true) :=
  ⟨by decide, claim_C7 demoSession demoAdvice (by decide)⟩

/-- Claim C8: the parser is total and lossy in the stated way: the number of
parsed sections equals the number of lines whose stripped form starts with a
section ordinal (so fewer than 3 markers simply yield fewer sections), and a
non-section, non-advice, non-motivation line arriving while no section is
open leaves the parser state completely unchanged. -/
theorem claim_C8 :
    (∀ lines : List Str, (parse_learning_data lines).sections.length =
        lines.countP (fun l => isSectionStart (pyStrip l))) ∧
    (∀ (D : ParsedData) (l : Str), isSectionStart (pyStrip l) = false →
        startsWith aiMarker (pyStrip l) = false →
        startsWith ['🚀'] (pyStrip l) = false →
        parseLineStep (D, none) l = (D, none)) :=
  ⟨parse_sections_count, fun D l h2 h3 h4 => parseLineStep_drop D l h2 h3 h4⟩

theorem claim_C8_witness :
    (parse_learning_data [['✅', 'x'], ['❶', 'q', '⭐', ' ', '(', '1', ')'],
        ['❷', 'r', '☆']]).sections.length = 2 ∧
    parseLineStep (⟨[], [], []⟩, none) ['✅', 'x'] = (⟨[], [], []⟩, none) :=
  ⟨(claim_C8.1 _).trans (by decide),
   claim_C8.2 ⟨[], [], []⟩ ['✅', 'x'] (by decide) (by decide) (by decide)⟩

/-- Claim C9: the renderer succeeds on any number of sections; the palette
index is the section position modulo 3 (so positions three apart get equal
cards and the palette lookup never goes out of range), the first card of a
section being coloured with the palette entry at that index. -/
theorem claim_C9 :
    (∀ d : ParsedData, ∃ t, create_body d = some t) ∧
    (∀ (s : ParsedSection) (i : ℕ),
        create_modern_section s (i + 3) = create_modern_section s i) ∧
    (∀ (s : ParsedSection) (i : ℕ), ∃ cards,
        create_modern_section s i = some cards ∧
        headBg cards = (colors.get? (i % 3)).map (fun c => c.bg)) :=
  ⟨create_body_isSome, create_modern_section_cycle, create_modern_section_color⟩

/-- Claim C10: the rendered body is independent of the parsed `motivation`
field (the motivational line is parsed but dropped by the renderer), while
the parser stores any stripped line starting with the rocket glyph verbatim
in `motivation`, leaving the open section untouched. -/
theorem claim_C10 :
    (∀ (d : ParsedData) (m : Str),
        create_body { d with motivation := m } = create_body d) ∧
    (∀ (D : ParsedData) (cur : Option ParsedSection) (l : Str),
        startsWith ['🚀'] (pyStrip l) = true →
        parseLineStep (D, cur) l = ({ D with motivation := pyStrip l }, cur)) :=
  ⟨fun d m => rfl, fun D cur l h => parseLineStep_rocket D cur l h⟩

theorem claim_C10_witness :
    parseLineStep (⟨[], [], []⟩, none) ['🚀', '!'] =
      (⟨[], [], ['🚀', '!']⟩, none) := by
  have h := claim_C10.2 ⟨[], [], []⟩ none ['🚀', '!'] (by decide)
  rwa [show pyStrip ['🚀', '!'] = ['🚀', '!'] from by decide] at h
